import Mathlib

/-!
Verification of the resilient AI request pipeline of the Health-Care-AI
repository (backend gemini service).

The JavaScript source is embedded shallowly:

* a thrown JavaScript error value is modelled by `JsError` (an optional
  numeric `status` as carried by provider errors, a `message`, and a flag
  recording whether the value is a `SyntaxError`);
* the wrapped asynchronous provider call is modelled as an oracle
  `fn : Nat → Except JsError α` giving the outcome of the i-th invocation;
* `Math.random()` is modelled as an oracle `r : Nat → ℚ` producing the
  sample used on the i-th attempt (the real generator keeps `0 ≤ r i < 1`);
* `retryWithBackoff` returns a `RetryTrace`: the final outcome (`Except
  (Option JsError) α`, where `Except.error none` is the `throw lastError`
  with `lastError` still `undefined`, reachable only for a zero attempt
  budget), the number of invocations of the wrapped function, and the list
  of sleep durations.

JavaScript truthiness is made explicit wherever the source relies on it
(`error.status && ...`, `!parsedJson.healthScore`, `fileData &&
fileData.data`, `latitude && longitude`, `response.text || ...`).
-/

/-- A thrown JavaScript value as seen by the pipeline: provider errors carry
a numeric `status`; `new Error(msg)` carries only a message; `JSON.parse`
failures are `SyntaxError`s. -/
structure JsError where
  status : Option Nat := none
  message : String := ""
  isSyntaxError : Bool := false
deriving Repr, DecidableEq

/-- `lastError` after the loop may still be `undefined` (only when the
attempt budget is zero); unwrapping an absent error yields a placeholder. -/
def unwrapThrown (oe : Option JsError) : JsError :=
  oe.getD { message := "undefined" }

/-- The retry guard of `retryWithBackoff`:
`error.status && error.status >= 500 && error.status < 600`.
A missing status is falsy, a zero status is falsy, otherwise the numeric
range check applies. -/
def isRetryable (e : JsError) : Bool :=
  match e.status with
  | some s => decide (s ≠ 0) && decide (500 ≤ s) && decide (s < 600)
  | none => false

/-- Observable trace of one `retryWithBackoff` invocation: final outcome,
number of calls issued to the wrapped function, and the sleep durations
(in milliseconds) inserted between attempts. -/
structure RetryTrace (α : Type) where
  result : Except (Option JsError) α
  calls : Nat
  waits : List ℚ

/-- The `for (let i = 0; i < retries; i++)` loop of `retryWithBackoff`,
by recursion on the remaining attempts. `i` is the attempt index, `delay`
the current backoff delay, `last` the `lastError` variable. On a retryable
(5xx) failure the loop sleeps `delay + r i * jitter` milliseconds
(`Math.random() * jitter` being the jitter sample) and doubles `delay`;
any other failure is re-thrown at once; an exhausted budget throws
`lastError`. -/
def retryLoop {α : Type} (fn : Nat → Except JsError α) (r : Nat → ℚ) (jitter : ℚ) :
    Nat → Nat → ℚ → Option JsError → RetryTrace α
  | 0, _, _, last => { result := .error last, calls := 0, waits := [] }
  | rem + 1, i, delay, _ =>
    match fn i with
    | .ok a => { result := .ok a, calls := 1, waits := [] }
    | .error e =>
      if isRetryable e then
        let rest := retryLoop fn r jitter rem (i + 1) (2 * delay) (some e)
        { result := rest.result, calls := rest.calls + 1,
          waits := (delay + r i * jitter) :: rest.waits }
      else
        { result := .error (some e), calls := 1, waits := [] }

/-- `retryWithBackoff` of `src/unnamed/part_000` (defaults `retries = 5`,
`delay = 1000`, `jitter = 200`). -/
def retryWithBackoff {α : Type} (fn : Nat → Except JsError α) (r : Nat → ℚ)
    (retries : Nat := 5) (delay : ℚ := 1000) (jitter : ℚ := 200) : RetryTrace α :=
  retryLoop fn r jitter retries 0 delay none

/-- `retryWithBackoff` of `src/backend/services/geminiService.js`
(defaults `retries = 3`, `delay = 1000`); it sleeps exactly `delay`
between attempts, i.e. it is the jitterless instance of the same loop. -/
def retryWithBackoffBackend {α : Type} (fn : Nat → Except JsError α)
    (retries : Nat := 3) (delay : ℚ := 1000) : RetryTrace α :=
  retryLoop fn (fun _ => 0) 0 retries 0 delay none

section RetrySanity

def err503 : JsError := { status := some 503, message := "Service Unavailable" }
def err429 : JsError := { status := some 429, message := "Too Many Requests" }

def fnDemo : Nat → Except JsError Nat :=
  fun n => if n = 0 then .error err503 else .error err429

example : (retryWithBackoff fnDemo (fun _ => 0)).calls = 2 := by
  decide

example : (retryWithBackoff fnDemo (fun _ => 0)).result = .error (some err429) := by
  rfl

example :
    (retryWithBackoff (fun _ => (.error err503 : Except JsError Nat))
      (fun _ => 0)).calls = 5 := by
  decide

example :
    (retryWithBackoff (fun n => if n ≤ 1 then .error err503 else .ok 7)
      (fun _ => (1 : ℚ) / 2)).waits = [1100, 2100] := by
  norm_num [retryWithBackoff, retryLoop, isRetryable, err503]

end RetrySanity

theorem isRetryable_iff (e : JsError) :
    isRetryable e = true ↔ ∃ s, e.status = some s ∧ s ≠ 0 ∧ 500 ≤ s ∧ s < 600 := by
  cases e with
  | mk st msg syn =>
    cases st with
    | none => simp [isRetryable]
    | some s => simp [isRetryable, and_assoc]

theorem retryLoop_succ_ok {α : Type} {fn : Nat → Except JsError α} {r : Nat → ℚ}
    {jitter : ℚ} {rem i : Nat} {delay : ℚ} {last : Option JsError} {a : α}
    (hfn : fn i = .ok a) :
    retryLoop fn r jitter (rem + 1) i delay last =
      { result := .ok a, calls := 1, waits := [] } := by
  conv_lhs => rw [retryLoop]
  rw [hfn]

theorem retryLoop_succ_retryable {α : Type} {fn : Nat → Except JsError α} {r : Nat → ℚ}
    {jitter : ℚ} {rem i : Nat} {delay : ℚ} {last : Option JsError} {e : JsError}
    (hfn : fn i = .error e) (hr : isRetryable e = true) :
    retryLoop fn r jitter (rem + 1) i delay last =
      { result := (retryLoop fn r jitter rem (i + 1) (2 * delay) (some e)).result,
        calls := (retryLoop fn r jitter rem (i + 1) (2 * delay) (some e)).calls + 1,
        waits := (delay + r i * jitter) ::
          (retryLoop fn r jitter rem (i + 1) (2 * delay) (some e)).waits } := by
  conv_lhs => rw [retryLoop]
  rw [hfn]
  simp [hr]

theorem retryLoop_succ_nonretryable {α : Type} {fn : Nat → Except JsError α} {r : Nat → ℚ}
    {jitter : ℚ} {rem i : Nat} {delay : ℚ} {last : Option JsError} {e : JsError}
    (hfn : fn i = .error e) (hr : isRetryable e = false) :
    retryLoop fn r jitter (rem + 1) i delay last =
      { result := .error (some e), calls := 1, waits := [] } := by
  conv_lhs => rw [retryLoop]
  rw [hfn]
  simp [hr]

theorem retryLoop_calls_le {α : Type} (fn : Nat → Except JsError α) (r : Nat → ℚ)
    (jitter : ℚ) :
    ∀ rem i delay last, (retryLoop fn r jitter rem i delay last).calls ≤ rem := by
  intro rem
  induction rem with
  | zero => intro i delay last; simp [retryLoop]
  | succ n ih =>
    intro i delay last
    cases hf : fn i with
    | ok a => rw [retryLoop_succ_ok hf]; simp
    | error e =>
      cases hr : isRetryable e with
      | false => rw [retryLoop_succ_nonretryable hf hr]; simp
      | true =>
        rw [retryLoop_succ_retryable hf hr]
        have := ih (i + 1) (2 * delay) (some e)
        simp only []
        omega

theorem retryLoop_stops_nonretryable {α : Type} (fn : Nat → Except JsError α)
    (r : Nat → ℚ) (jitter : ℚ) (e : JsError) (he : isRetryable e = false) :
    ∀ k rem i delay last, k < rem →
      (∀ j, j < k → ∃ e', fn (i + j) = .error e' ∧ isRetryable e' = true) →
      fn (i + k) = .error e →
      (retryLoop fn r jitter rem i delay last).result = .error (some e) ∧
      (retryLoop fn r jitter rem i delay last).calls = k + 1 := by
  intro k
  induction k with
  | zero =>
    intro rem i delay last hk hprev hfn
    obtain ⟨rem', rfl⟩ : ∃ rem', rem = rem' + 1 := ⟨rem - 1, by omega⟩
    rw [Nat.add_zero] at hfn
    rw [retryLoop_succ_nonretryable hfn he]
    exact ⟨rfl, rfl⟩
  | succ k ih =>
    intro rem i delay last hk hprev hfn
    obtain ⟨rem', rfl⟩ : ∃ rem', rem = rem' + 1 := ⟨rem - 1, by omega⟩
    obtain ⟨e0, hfn0, hr0⟩ := hprev 0 (Nat.succ_pos k)
    rw [Nat.add_zero] at hfn0
    have hrec := ih rem' (i + 1) (2 * delay) (some e0) (by omega)
      (fun j hj => by
        have hpj := hprev (j + 1) (by omega)
        rwa [show i + (j + 1) = i + 1 + j by omega] at hpj)
      (by rwa [show i + 1 + k = i + (k + 1) by omega])
    rw [retryLoop_succ_retryable hfn0 hr0]
    exact ⟨hrec.1, by simp only []; rw [hrec.2]⟩

theorem retryLoop_exhausts {α : Type} (fn : Nat → Except JsError α) (r : Nat → ℚ)
    (jitter : ℚ) (E : Nat → JsError) :
    ∀ rem i delay last,
      (∀ k, k ≤ rem → fn (i + k) = .error (E (i + k)) ∧ isRetryable (E (i + k)) = true) →
      (retryLoop fn r jitter (rem + 1) i delay last).result = .error (some (E (i + rem))) ∧
      (retryLoop fn r jitter (rem + 1) i delay last).calls = rem + 1 := by
  intro rem
  induction rem with
  | zero =>
    intro i delay last hfail
    obtain ⟨hfn, hr⟩ := hfail 0 (Nat.le_refl 0)
    rw [Nat.add_zero] at hfn hr
    rw [retryLoop_succ_retryable hfn hr]
    simp [retryLoop]
  | succ n ih =>
    intro i delay last hfail
    obtain ⟨hfn0, hr0⟩ := hfail 0 (Nat.zero_le _)
    rw [Nat.add_zero] at hfn0 hr0
    have hrec := ih (i + 1) (2 * delay) (some (E i))
      (fun k hk => by
        have hpk := hfail (k + 1) (by omega)
        rwa [show i + (k + 1) = i + 1 + k by omega] at hpk)
    rw [show i + 1 + n = i + (n + 1) by omega] at hrec
    rw [retryLoop_succ_retryable hfn0 hr0]
    exact ⟨hrec.1, by simp only []; rw [hrec.2]⟩

theorem retryLoop_waits_get {α : Type} (fn : Nat → Except JsError α) (r : Nat → ℚ)
    (jitter : ℚ) :
    ∀ rem i delay last k
      (hk : k < (retryLoop fn r jitter rem i delay last).waits.length),
      (retryLoop fn r jitter rem i delay last).waits[k] =
        delay * 2 ^ k + r (i + k) * jitter := by
  intro rem
  induction rem with
  | zero => intro i delay last k hk; simp [retryLoop] at hk
  | succ n ih =>
    intro i delay last k
    cases hf : fn i with
    | ok a =>
      intro hk
      rw [retryLoop_succ_ok hf] at hk
      simp at hk
    | error e =>
      cases hr : isRetryable e with
      | false =>
        intro hk
        rw [retryLoop_succ_nonretryable hf hr] at hk
        simp at hk
      | true =>
        intro hk
        simp only [retryLoop_succ_retryable hf hr] at hk ⊢
        cases k with
        | zero => simp
        | succ m =>
          have hm : m < (retryLoop fn r jitter n (i + 1) (2 * delay) (some e)).waits.length := by
            simpa using hk
          have hrec := ih (i + 1) (2 * delay) (some e) m hm
          simp only [List.getElem_cons_succ]
          rw [hrec, show i + 1 + m = i + (m + 1) by omega]
          ring

theorem isRetryable_false_of_status_out_of_range {e : JsError} {s : Nat}
    (hs : e.status = some s) (hrange : ¬(500 ≤ s ∧ s < 600)) :
    isRetryable e = false := by
  rw [Bool.eq_false_iff]
  intro h
  obtain ⟨s', hs', _, h5, h6⟩ := (isRetryable_iff e).mp h
  rw [hs] at hs'
  exact hrange (by cases hs'; exact ⟨h5, h6⟩)

theorem isRetryable_false_of_falsy_status {e : JsError}
    (hs : e.status = none ∨ e.status = some 0) :
    isRetryable e = false := by
  rw [Bool.eq_false_iff]
  intro h
  obtain ⟨s', hs', h0, _, _⟩ := (isRetryable_iff e).mp h
  cases hs with
  | inl hnone => rw [hnone] at hs'; cases hs'
  | inr hzero => rw [hzero] at hs'; cases hs'; exact h0 rfl

/-- C1: whenever an attempt of `retryWithBackoff` fails with an error whose
numeric status lies outside 500–599 (for example 429), that error is thrown
to the caller at once and the wrapped function is not invoked again: the
call count is exactly the index of the failing attempt plus one. -/
theorem retry_non5xx_error_propagates_immediately {α : Type}
    (fn : Nat → Except JsError α) (r : Nat → ℚ) (retries : Nat) (delay jitter : ℚ)
    (k : Nat) (e : JsError) (s : Nat)
    (hk : k < retries)
    (hprev : ∀ j, j < k → ∃ e', fn j = .error e' ∧ isRetryable e' = true)
    (hfn : fn k = .error e)
    (hs : e.status = some s)
    (hrange : ¬(500 ≤ s ∧ s < 600)) :
    (retryWithBackoff fn r retries delay jitter).result = .error (some e) ∧
    (retryWithBackoff fn r retries delay jitter).calls = k + 1 := by
  have he := isRetryable_false_of_status_out_of_range hs hrange
  exact retryLoop_stops_nonretryable fn r jitter e he k retries 0 delay none hk
    (by simpa using hprev) (by simpa using hfn)

/-- C1 witness: a 503 on the first attempt followed by a 429 on the second
attempt: the 429 propagates and exactly two calls are issued. -/
theorem retry_non5xx_error_propagates_immediately_witness :
    (retryWithBackoff fnDemo (fun _ => 0) 5 1000 200).result = .error (some err429) ∧
    (retryWithBackoff fnDemo (fun _ => 0) 5 1000 200).calls = 1 + 1 :=
  retry_non5xx_error_propagates_immediately fnDemo (fun _ => 0) 5 1000 200 1 err429 429
    (by decide)
    (fun j hj => by
      have hj0 : j = 0 := by omega
      subst hj0
      exact ⟨err503, rfl, by decide⟩)
    rfl rfl (by decide)

/-- C2: `retryWithBackoff` invokes the wrapped function at most `retries`
times; and when every one of the `retries` attempts fails with a
retryable (5xx) error, the error of the final attempt is the one thrown
and all `retries` attempts are consumed. -/
theorem retry_budget_and_last_error {α : Type}
    (fn : Nat → Except JsError α) (r : Nat → ℚ) (retries : Nat) (delay jitter : ℚ)
    (E : Nat → JsError) :
    (retryWithBackoff fn r retries delay jitter).calls ≤ retries ∧
    ((∀ j, j < retries → fn j = .error (E j) ∧ isRetryable (E j) = true) →
      1 ≤ retries →
      (retryWithBackoff fn r retries delay jitter).result =
        .error (some (E (retries - 1))) ∧
      (retryWithBackoff fn r retries delay jitter).calls = retries) := by
  constructor
  · exact retryLoop_calls_le fn r jitter retries 0 delay none
  · intro hfail hpos
    obtain ⟨n, rfl⟩ : ∃ n, retries = n + 1 := ⟨retries - 1, by omega⟩
    have := retryLoop_exhausts fn r jitter E n 0 delay none
      (fun k hk => by simpa using hfail k (by omega))
    simpa [retryWithBackoff] using this

/-- C2 witness: five straight 503 failures under the default budget of 5:
five calls are issued and the last 503 is thrown. -/
theorem retry_budget_and_last_error_witness :
    (retryWithBackoff (fun _ => (.error err503 : Except JsError Nat))
      (fun _ => 0) 5 1000 200).calls ≤ 5 ∧
    (retryWithBackoff (fun _ => (.error err503 : Except JsError Nat))
      (fun _ => 0) 5 1000 200).result = .error (some err503) ∧
    (retryWithBackoff (fun _ => (.error err503 : Except JsError Nat))
      (fun _ => 0) 5 1000 200).calls = 5 := by
  have h := retry_budget_and_last_error (fun _ => (.error err503 : Except JsError Nat))
    (fun _ => 0) 5 1000 200 (fun _ => err503)
  exact ⟨h.1, h.2 (fun j hj => ⟨rfl, by decide⟩) (by decide)⟩

/-- C3: the k-th sleep of `retryWithBackoff` (the one after the (k+1)-st
failed attempt, counting from k = 0) is exactly `delay * 2 ^ k` plus the
jitter sample `r k * jitter`; with a random source in `[0, 1)` and a
non-negative jitter bound this wait never drops below the current backoff
delay and exceeds it by at most `jitter`. -/
theorem retry_backoff_wait_schedule {α : Type}
    (fn : Nat → Except JsError α) (r : Nat → ℚ) (retries : Nat) (delay jitter : ℚ)
    (k : Nat) (hk : k < (retryWithBackoff fn r retries delay jitter).waits.length) :
    (retryWithBackoff fn r retries delay jitter).waits[k] =
      delay * 2 ^ k + r k * jitter ∧
    (0 ≤ r k → r k < 1 → 0 ≤ jitter →
      delay * 2 ^ k ≤ (retryWithBackoff fn r retries delay jitter).waits[k] ∧
      (retryWithBackoff fn r retries delay jitter).waits[k] ≤ delay * 2 ^ k + jitter) := by
  have hget := retryLoop_waits_get fn r jitter retries 0 delay none k hk
  rw [Nat.zero_add] at hget
  have hget2 : (retryWithBackoff fn r retries delay jitter).waits[k] =
      delay * 2 ^ k + r k * jitter := hget
  refine ⟨hget2, fun hr0 hr1 hj => ?_⟩
  rw [hget2]
  constructor
  · have : 0 ≤ r k * jitter := mul_nonneg hr0 hj
    linarith
  · have : r k * jitter ≤ 1 * jitter :=
      mul_le_mul_of_nonneg_right (le_of_lt hr1) hj
    linarith

def fnTwo503 : Nat → Except JsError Nat :=
  fun n => if n ≤ 1 then .error err503 else .ok 7

def rHalf : Nat → ℚ := fun _ => 1 / 2

/-- C3 witness: two 503 failures then a success, with `Math.random()`
returning 1/2: the second sleep is `1000 * 2 + 100 = 2100` ms, between the
bare backoff delay 2000 and `2000 + 200`. -/
theorem retry_backoff_wait_schedule_witness :
    ∃ hk : 1 < (retryWithBackoff fnTwo503 rHalf 5 1000 200).waits.length,
      (retryWithBackoff fnTwo503 rHalf 5 1000 200).waits[1] =
        1000 * 2 ^ 1 + rHalf 1 * 200 ∧
      1000 * 2 ^ 1 ≤ (retryWithBackoff fnTwo503 rHalf 5 1000 200).waits[1] ∧
      (retryWithBackoff fnTwo503 rHalf 5 1000 200).waits[1] ≤ 1000 * 2 ^ 1 + 200 := by
  have hk : 1 < (retryWithBackoff fnTwo503 rHalf 5 1000 200).waits.length := by
    norm_num [retryWithBackoff, retryLoop, isRetryable, err503, fnTwo503, rHalf]
  have h := retry_backoff_wait_schedule fnTwo503 rHalf 5 1000 200 1 hk
  exact ⟨hk, h.1, h.2 (by norm_num [rHalf]) (by norm_num [rHalf]) (by norm_num)⟩

/-- C9: an error carrying no numeric status at all (a plain network or
programmer error) or a falsy status is never retried: it is thrown to the
caller at the attempt where it occurs and no further call is issued. -/
theorem retry_statusless_error_propagates_immediately {α : Type}
    (fn : Nat → Except JsError α) (r : Nat → ℚ) (retries : Nat) (delay jitter : ℚ)
    (k : Nat) (e : JsError)
    (hk : k < retries)
    (hprev : ∀ j, j < k → ∃ e', fn j = .error e' ∧ isRetryable e' = true)
    (hfn : fn k = .error e)
    (hs : e.status = none ∨ e.status = some 0) :
    (retryWithBackoff fn r retries delay jitter).result = .error (some e) ∧
    (retryWithBackoff fn r retries delay jitter).calls = k + 1 := by
  have he := isRetryable_false_of_falsy_status hs
  exact retryLoop_stops_nonretryable fn r jitter e he k retries 0 delay none hk
    (by simpa using hprev) (by simpa using hfn)

def errNoStatus : JsError := { message := "network down" }

/-- C9 witness: a status-less error on the very first attempt propagates
with exactly one call issued. -/
theorem retry_statusless_error_propagates_immediately_witness :
    (retryWithBackoff (fun _ => (.error errNoStatus : Except JsError Nat))
      (fun _ => 0) 5 1000 200).result = .error (some errNoStatus) ∧
    (retryWithBackoff (fun _ => (.error errNoStatus : Except JsError Nat))
      (fun _ => 0) 5 1000 200).calls = 0 + 1 :=
  retry_statusless_error_propagates_immediately
    (fun _ => (.error errNoStatus : Except JsError Nat)) (fun _ => 0) 5 1000 200 0
    errNoStatus (by decide) (fun j hj => absurd hj (by omega)) rfl (Or.inl rfl)

/-!
The response-processing side of the pipeline. `JSON.parse` is a platform
builtin: it is passed in as an abstract parser
`jsonParse : String → Except Unit JsValue` whose failure is a
`SyntaxError`; its successful results are JavaScript values `JsValue`.
-/

/-- A JavaScript (JSON) value. -/
inductive JsValue where
  | null
  | bool (b : Bool)
  | num (q : ℚ)
  | str (s : String)
  | arr (elems : List JsValue)
  | obj (fields : List (String × JsValue))

/-- JavaScript truthiness of a value (`undefined` is modelled by `null`;
arrays and objects are always truthy, even when empty). -/
def JsValue.truthy : JsValue → Bool
  | .null => false
  | .bool b => b
  | .num q => decide (q ≠ 0)
  | .str s => decide (s ≠ "")
  | .arr _ => true
  | .obj _ => true

/-- Property access `v.k`: the field of an object if present, otherwise
`undefined` (modelled by `null`, which has the same truthiness). -/
def JsValue.getField : JsValue → String → JsValue
  | .obj fields, k =>
    match fields.find? (fun p => p.1 == k) with
    | some p => p.2
    | none => .null
  | _, _ => .null

/-- Truthiness of an optional string field (`undefined` and `""` are
falsy). -/
def optStrTruthy : Option String → Bool
  | some s => decide (s ≠ "")
  | none => false

/-- Truthiness of an optional numeric field (`undefined` and `0` are
falsy). -/
def optNumTruthy : Option ℚ → Bool
  | some q => decide (q ≠ 0)
  | none => false

/-- The inline file payload of a report-analysis request. -/
structure FileData where
  mimeType : String
  data : String

/-- `fileData && fileData.data`. -/
def fileDataTruthy : Option FileData → Bool
  | some fd => decide (fd.data ≠ "")
  | none => false

/-- The outbound content payload: either a single prompt string or the
prompt plus an inline binary part. -/
inductive Contents where
  | textOnly (s : String)
  | withInline (prompt mimeType data : String)

/-- A provider response as consumed by the JSON operations (`response.text`). -/
structure GenResponse where
  text : String

def analyzePrompt : String :=
  "Analyze the provided medical report. Based on the data, generate a health analysis according to the provided JSON schema. The report content is either in the following text or in the attached PDF file."

def noReportErr : JsError := { message := "No report data provided to analyze." }
def jsonSyntaxErr : JsError := { message := "Unexpected token", isSyntaxError := true }
def missingFieldsErr : JsError := { message := "AI response is missing required fields." }
def analyzeParseErr : JsError :=
  { message := "Failed to parse the AI\x27s JSON response. The model may have returned an unexpected format." }
def analyzeGenericErr : JsError :=
  { message := "Failed to get a valid analysis from the AI." }

/-- The content-construction branch at the top of `analyzeHealthReport`:
inline data wins over text, text is used when truthy, otherwise the input
error is thrown. -/
def mkAnalyzeContents (reportText : Option String) (fileData : Option FileData) :
    Except JsError Contents :=
  if fileDataTruthy fileData then
    .ok (.withInline analyzePrompt ((fileData.getD ⟨"", ""⟩).mimeType)
      ((fileData.getD ⟨"", ""⟩).data))
  else if optStrTruthy reportText then
    .ok (.textOnly (analyzePrompt ++ "\n\nHere is the report:\n\n" ++ reportText.getD ""))
  else
    .error noReportErr

/-- `analyzeHealthReport` of `src/unnamed/part_000`: build the contents
(or throw the input error), call the provider inside `retryWithBackoff`,
trim and parse the response text, check truthiness of `healthScore` and
`summary`, and translate every error in the surrounding catch
(`SyntaxError` to the dedicated parse-failure message, everything else to
the generic analysis failure). The second component counts provider
calls issued. -/
def analyzeHealthReport (jsonParse : String → Except Unit JsValue)
    (gen : Nat → Except JsError GenResponse) (r : Nat → ℚ)
    (reportText : Option String) (fileData : Option FileData) :
    Except JsError JsValue × Nat :=
  let inner : Except JsError JsValue × Nat :=
    match mkAnalyzeContents reportText fileData with
    | .error e => (.error e, 0)
    | .ok _contents =>
      let t := retryWithBackoff gen r
      match t.result with
      | .error oe => (.error (unwrapThrown oe), t.calls)
      | .ok resp =>
        match jsonParse resp.text.trim with
        | .error _ => (.error jsonSyntaxErr, t.calls)
        | .ok parsed =>
          if !(parsed.getField "healthScore").truthy || !(parsed.getField "summary").truthy then
            (.error missingFieldsErr, t.calls)
          else
            (.ok parsed, t.calls)
  match inner with
  | (.ok v, n) => (.ok v, n)
  | (.error e, n) =>
    if e.isSyntaxError then (.error analyzeParseErr, n)
    else (.error analyzeGenericErr, n)

def symptomsParseErr : JsError :=
  { message := "Failed to parse the AI\x27s JSON response for symptoms." }
def symptomsGenericErr : JsError :=
  { message := "Failed to get a valid prediction from the AI." }
def missingPredictionsErr : JsError :=
  { message := "AI response is missing the \x27predictions\x27 field." }

/-- Observable trace of `predictSymptomsFromText`: the outcome, the number
of provider calls issued against the primary model, the number issued
against the fallback model, and how many times the 503 escalation fired. -/
structure SymptomTrace where
  result : Except JsError JsValue
  primaryCalls : Nat
  fallbackCalls : Nat
  escalations : Nat

/-- `predictSymptomsFromText` of `src/unnamed/part_000`: run
`generate(primaryModel)` (a `retryWithBackoff` around the provider call);
on an error whose status is exactly 503 run `generate(fallbackModel)`
(again a `retryWithBackoff`), otherwise rethrow; then trim, parse,
check truthiness of `predictions`, and translate errors in the outer
catch. -/
def predictSymptomsFromText (jsonParse : String → Except Unit JsValue)
    (genPrimary genFallback : Nat → Except JsError GenResponse)
    (rPrimary rFallback : Nat → ℚ) : SymptomTrace :=
  let tP := retryWithBackoff genPrimary rPrimary
  let escalated : Except JsError GenResponse × Nat × Nat :=
    match tP.result with
    | .ok resp => (.ok resp, 0, 0)
    | .error oe =>
      let e := unwrapThrown oe
      if e.status = some 503 then
        let tF := retryWithBackoff genFallback rFallback
        match tF.result with
        | .ok resp => (.ok resp, tF.calls, 1)
        | .error oe2 => (.error (unwrapThrown oe2), tF.calls, 1)
      else
        (.error e, 0, 0)
  let inner : Except JsError JsValue :=
    match escalated.1 with
    | .error e => .error e
    | .ok resp =>
      match jsonParse resp.text.trim with
      | .error _ => .error jsonSyntaxErr
      | .ok parsed =>
        if !(parsed.getField "predictions").truthy then .error missingPredictionsErr
        else .ok parsed
  match inner with
  | .ok v =>
    { result := .ok v, primaryCalls := tP.calls,
      fallbackCalls := escalated.2.1, escalations := escalated.2.2 }
  | .error e =>
    { result := .error (if e.isSyntaxError then symptomsParseErr else symptomsGenericErr),
      primaryCalls := tP.calls,
      fallbackCalls := escalated.2.1, escalations := escalated.2.2 }

/-- `inlineData` of a TTS response part. -/
structure InlineData where
  data : Option String

/-- A part of a TTS response candidate content. -/
structure TtsPart where
  inlineData : Option InlineData

/-- The content of a TTS response candidate. -/
structure TtsContent where
  parts : List TtsPart

/-- A TTS response candidate. -/
structure TtsCandidate where
  content : Option TtsContent

/-- A TTS provider response. -/
structure TtsResponse where
  candidates : List TtsCandidate

/-- The optional chain
`response.candidates?.[0]?.content?.parts?.[0]?.inlineData?.data`. -/
def ttsAudioData (resp : TtsResponse) : Option String :=
  ((((resp.candidates.head?.bind TtsCandidate.content).bind
    (fun c => c.parts.head?)).bind TtsPart.inlineData).bind InlineData.data)

/-- `textToSpeech` of `src/unnamed/part_000`: run the TTS call inside
`retryWithBackoff`; extract the base64 audio through the optional chain and
throw when it is falsy; the surrounding catch swallows every error and
returns `null` so the chat can proceed with text alone. -/
def textToSpeech (gen : Nat → Except JsError TtsResponse) (r : Nat → ℚ) :
    Option String :=
  match (retryWithBackoff gen r).result with
  | .error _ => none
  | .ok resp =>
    match ttsAudioData resp with
    | some d => if d = "" then none else some d
    | none => none

/-- The response of `chat.sendMessage`. -/
structure ChatSendResponse where
  text : String

/-- The voice configuration passed to the chat operation. -/
structure VoiceConfig where
  enabled : Bool
  voice : String

/-- The value returned by the chat operation: the text response and the
optional base64 audio. -/
structure ChatResult where
  response : String
  audio : Option String
deriving Repr, DecidableEq

def chatGenericErr : JsError :=
  { message := "Could not get a response from the assistant." }

/-- `getChatResponse` of `src/unnamed/part_000`: get the text response
inside `retryWithBackoff`; when voice is enabled and the text truthy,
synthesize audio with `textToSpeech` (which never throws) and attach its
result; a failure of the text call itself is translated by the catch. -/
def getChatResponse (genChat : Nat → Except JsError ChatSendResponse) (rChat : Nat → ℚ)
    (genTts : Nat → Except JsError TtsResponse) (rTts : Nat → ℚ)
    (voiceConfig : VoiceConfig) : Except JsError ChatResult :=
  match (retryWithBackoff genChat rChat).result with
  | .error _ => .error chatGenericErr
  | .ok resp =>
    let responseText := resp.text
    let audio :=
      if voiceConfig.enabled && decide (responseText ≠ "") then textToSpeech genTts rTts
      else none
    .ok { response := responseText, audio := audio }

/-- The `maps` grounding payload of one chunk. -/
structure MapsInfo where
  uri : Option String
  title : Option String

/-- One grounding chunk of a maps-grounded response. -/
structure MapsChunk where
  maps : Option MapsInfo

/-- `groundingMetadata` of a maps-grounded response candidate. -/
structure MapsMetadata where
  groundingChunks : Option (List MapsChunk)

/-- A candidate of a maps-grounded response. -/
structure MapsCandidate where
  groundingMetadata : Option MapsMetadata

/-- A maps-grounded provider response (`text` is the free-text summary,
possibly absent). -/
structure MapsResponse where
  candidates : List MapsCandidate
  text : Option String

/-- One entry of the returned hospital list. -/
structure Hospital where
  name : String
  uri : String
deriving Repr, DecidableEq

/-- The value returned by the hospital lookup. -/
structure HospitalsResult where
  summary : String
  hospitals : List Hospital

def noLocationErr : JsError :=
  { message := "No location data provided to find hospitals." }
def hospitalsGenericErr : JsError :=
  { message := "Failed to get hospital data from the AI." }

/-- The optional chain
`response.candidates?.[0]?.groundingMetadata?.groundingChunks`. -/
def mapsChunksOf (resp : MapsResponse) : Option (List MapsChunk) :=
  (resp.candidates.head?.bind MapsCandidate.groundingMetadata).bind
    MapsMetadata.groundingChunks

/-- The filter `chunk.maps && chunk.maps.uri && chunk.maps.title`. -/
def mapsChunkComplete (c : MapsChunk) : Bool :=
  match c.maps with
  | some m => optStrTruthy m.uri && optStrTruthy m.title
  | none => false

/-- The content-construction branch at the top of
`findHospitalsNearLocation`: truthy coordinates win (with the query used
when truthy), a truthy query alone works without coordinates, otherwise
the input error is thrown. -/
def mkHospitalsContents (latitude longitude : Option ℚ) (query : Option String) :
    Except JsError String :=
  if optNumTruthy latitude && optNumTruthy longitude then
    .ok (if optStrTruthy query then
      query.getD "" ++ ". Provide a brief summary and list them."
    else
      "What hospitals are nearby my current location? Provide a brief summary and list them.")
  else if optStrTruthy query then
    .ok ("What hospitals are near " ++ query.getD "" ++ "? Provide a brief summary and list them.")
  else
    .error noLocationErr

/-- `findHospitalsNearLocation` of `src/unnamed/part_000`: build the
contents (or throw the input error), call the provider inside
`retryWithBackoff`, keep the grounding chunks that carry both a maps `uri`
and a maps `title`, map them to `(name, uri)` pairs, default the summary,
and translate every error in the catch to the one generic failure. The
second component counts provider calls issued. -/
def findHospitalsNearLocation (gen : Nat → Except JsError MapsResponse) (r : Nat → ℚ)
    (latitude longitude : Option ℚ) (query : Option String) :
    Except JsError HospitalsResult × Nat :=
  match mkHospitalsContents latitude longitude query with
  | .error _ => (.error hospitalsGenericErr, 0)
  | .ok _contents =>
    let t := retryWithBackoff gen r
    match t.result with
    | .error _ => (.error hospitalsGenericErr, t.calls)
    | .ok resp =>
      let chunks := (mapsChunksOf resp).getD []
      let hospitals := (chunks.filter mapsChunkComplete).map
        (fun c => { name := ((c.maps.getD ⟨none, none⟩).title).getD "",
                    uri := ((c.maps.getD ⟨none, none⟩).uri).getD "" })
      let summaryText :=
        if optStrTruthy resp.text then resp.text.getD ""
        else "Here are some hospitals found near your location."
      (.ok { summary := summaryText, hospitals := hospitals }, t.calls)

/-- C5: with neither a truthy text payload nor a truthy file payload, the
report analysis raises before issuing any provider call (zero calls, no
retry); likewise, with neither truthy coordinates nor a truthy query, the
hospital lookup raises before issuing any provider call. -/
theorem input_error_raised_before_network_call
    (jsonParse : String → Except Unit JsValue)
    (gen : Nat → Except JsError GenResponse) (r : Nat → ℚ)
    (reportText : Option String) (fileData : Option FileData)
    (genH : Nat → Except JsError MapsResponse) (rH : Nat → ℚ)
    (latitude longitude : Option ℚ) (query : Option String)
    (hrt : optStrTruthy reportText = false)
    (hfd : fileDataTruthy fileData = false)
    (hll : ¬(optNumTruthy latitude = true ∧ optNumTruthy longitude = true))
    (hq : optStrTruthy query = false) :
    analyzeHealthReport jsonParse gen r reportText fileData =
      (.error analyzeGenericErr, 0) ∧
    findHospitalsNearLocation genH rH latitude longitude query =
      (.error hospitalsGenericErr, 0) := by
  constructor
  · simp [analyzeHealthReport, mkAnalyzeContents, hrt, hfd, noReportErr]
  · have hand : (optNumTruthy latitude && optNumTruthy longitude) = false := by
      cases h1 : optNumTruthy latitude <;> cases h2 : optNumTruthy longitude <;>
        simp_all
    simp [findHospitalsNearLocation, mkHospitalsContents, hand, hq]

/-- C5 witness: an entirely empty request on both operations. -/
theorem input_error_raised_before_network_call_witness :
    analyzeHealthReport (fun _ => .error ()) (fun _ => .ok ⟨""⟩) (fun _ => 0)
      none none = (.error analyzeGenericErr, 0) ∧
    findHospitalsNearLocation (fun _ => .ok ⟨[], none⟩) (fun _ => 0)
      none none none = (.error hospitalsGenericErr, 0) :=
  input_error_raised_before_network_call (fun _ => .error ()) (fun _ => .ok ⟨""⟩)
    (fun _ => 0) none none (fun _ => .ok ⟨[], none⟩) (fun _ => 0) none none none
    rfl rfl (by simp [optNumTruthy]) rfl

/-- The provider JSON at which the report-analysis validation misfires:
every schema-required field is present and `healthScore` is the legal
value 0. -/
def analysisZeroScore : JsValue :=
  .obj [("summary", .str "Patient stable."), ("predictions", .arr []),
        ("healthScore", .num 0), ("recommendations", .arr [.str "Rest well."])]

def jsonParseC6 : String → Except Unit JsValue :=
  fun _ => .ok analysisZeroScore

def genC6 : Nat → Except JsError GenResponse := fun _ => .ok ⟨"RESP"⟩

/-- C6 (code bug): the validation of `analyzeHealthReport` checks
truthiness, not presence. On a response whose `healthScore` is present
with the value 0 — a score the schema itself declares legal ("from 0
(poor) to 100 (excellent)") — and whose `summary` is present and
non-empty, the pipeline raises the missing-required-fields failure
(surfaced as the generic analysis failure) instead of returning the
parsed structure unchanged. -/
theorem validation_rejects_present_zero_health_score :
    analysisZeroScore.getField "healthScore" = .num 0 ∧
    (analysisZeroScore.getField "summary").truthy = true ∧
    analyzeHealthReport jsonParseC6 genC6 (fun _ => 0) (some "report") none =
      (.error analyzeGenericErr, 1) :=
  ⟨rfl, rfl, rfl⟩

/-- C7: when the provider call succeeds but the trimmed response text does
not parse, the report analysis surfaces the dedicated parse-failure
message — distinct from the generic transport/analysis failure — and never
returns a value. -/
theorem parse_failure_distinct_error
    (jsonParse : String → Except Unit JsValue)
    (gen : Nat → Except JsError GenResponse) (r : Nat → ℚ)
    (reportText : Option String) (fileData : Option FileData)
    (resp : GenResponse)
    (hin : fileDataTruthy fileData = true ∨ optStrTruthy reportText = true)
    (hok : (retryWithBackoff gen r).result = .ok resp)
    (hparse : jsonParse resp.text.trim = .error ()) :
    analyzeHealthReport jsonParse gen r reportText fileData =
      (.error analyzeParseErr, (retryWithBackoff gen r).calls) ∧
    analyzeParseErr ≠ analyzeGenericErr ∧
    ∀ v n, analyzeHealthReport jsonParse gen r reportText fileData ≠ (.ok v, n) := by
  have hmain : analyzeHealthReport jsonParse gen r reportText fileData =
      (.error analyzeParseErr, (retryWithBackoff gen r).calls) := by
    rcases hin with h | h
    · simp [analyzeHealthReport, mkAnalyzeContents, h, hok, hparse, jsonSyntaxErr]
    · by_cases hf : fileDataTruthy fileData
      · simp [analyzeHealthReport, mkAnalyzeContents, hf, hok, hparse, jsonSyntaxErr]
      · simp [analyzeHealthReport, mkAnalyzeContents, hf, h, hok, hparse, jsonSyntaxErr]
  refine ⟨hmain, by decide, fun v n hcon => ?_⟩
  rw [hmain] at hcon
  exact absurd (congrArg Prod.fst hcon) (by simp)

def genC7 : Nat → Except JsError GenResponse := fun _ => .ok ⟨"not json"⟩

/-- C7 witness: a response body that never parses, from a call that
succeeds on the first attempt. -/
theorem parse_failure_distinct_error_witness :
    analyzeHealthReport (fun _ => .error ()) genC7 (fun _ => 0)
      (some "report") none =
      (.error analyzeParseErr, (retryWithBackoff genC7 (fun _ => 0)).calls) ∧
    analyzeParseErr ≠ analyzeGenericErr ∧
    ∀ v n, analyzeHealthReport (fun _ => .error ()) genC7 (fun _ => 0)
      (some "report") none ≠ (.ok v, n) :=
  parse_failure_distinct_error (fun _ => .error ()) genC7 (fun _ => 0)
    (some "report") none ⟨"not json"⟩ (Or.inr rfl) rfl rfl

/-- C8: with voice enabled and a successful text response, any failure of
audio synthesis — a failed TTS call or a response with no (or empty) audio
data — makes `textToSpeech` yield `null`, and the chat operation then
returns the populated text with a `null` audio field instead of raising. -/
theorem chat_voice_synthesis_failure_nonfatal
    (genChat : Nat → Except JsError ChatSendResponse) (rChat : Nat → ℚ)
    (genTts : Nat → Except JsError TtsResponse) (rTts : Nat → ℚ)
    (voice : String) (resp : ChatSendResponse)
    (hok : (retryWithBackoff genChat rChat).result = .ok resp)
    (htext : resp.text ≠ "") :
    (∀ oe, (retryWithBackoff genTts rTts).result = .error oe →
      textToSpeech genTts rTts = none) ∧
    (∀ resp2, (retryWithBackoff genTts rTts).result = .ok resp2 →
      (ttsAudioData resp2 = none ∨ ttsAudioData resp2 = some "") →
      textToSpeech genTts rTts = none) ∧
    (textToSpeech genTts rTts = none →
      getChatResponse genChat rChat genTts rTts ⟨true, voice⟩ =
        .ok { response := resp.text, audio := none }) := by
  refine ⟨fun oe hoe => ?_, fun resp2 hresp2 hdata => ?_, fun htts => ?_⟩
  · simp [textToSpeech, hoe]
  · rcases hdata with h | h <;> simp [textToSpeech, hresp2, h]
  · simp [getChatResponse, hok, htext, htts]

def genChatC8 : Nat → Except JsError ChatSendResponse := fun _ => .ok ⟨"Hello"⟩
def genTtsC8 : Nat → Except JsError TtsResponse := fun _ => .error err503

/-- C8 witness: the TTS call exhausts its retry budget on 503s while the
text call succeeds: the chat returns the text with `null` audio. -/
theorem chat_voice_synthesis_failure_nonfatal_witness :
    textToSpeech genTtsC8 (fun _ => 0) = none ∧
    getChatResponse genChatC8 (fun _ => 0) genTtsC8 (fun _ => 0) ⟨true, "Kore"⟩ =
      .ok { response := "Hello", audio := none } := by
  have h := chat_voice_synthesis_failure_nonfatal genChatC8 (fun _ => 0)
    genTtsC8 (fun _ => 0) "Kore" ⟨"Hello"⟩ rfl (by decide)
  have htts : textToSpeech genTtsC8 (fun _ => 0) = none :=
    h.1 (some err503) rfl
  exact ⟨htts, h.2.2 htts⟩

theorem optStrTruthy_iff (o : Option String) :
    optStrTruthy o = true ↔ ∃ s, o = some s ∧ s ≠ "" := by
  cases o <;> simp [optStrTruthy]

/-- C10: on any successful hospital lookup, every returned entry carries a
name and a locator copied from a grounding chunk whose maps payload had
both fields truthy (chunks lacking either are dropped), and an absent or
empty chunk list still yields a successful result with an empty hospital
list. -/
theorem hospitals_entries_from_complete_chunks
    (gen : Nat → Except JsError MapsResponse) (r : Nat → ℚ)
    (latitude longitude : Option ℚ) (query : Option String) (resp : MapsResponse)
    (hin : (optNumTruthy latitude = true ∧ optNumTruthy longitude = true) ∨
      optStrTruthy query = true)
    (hok : (retryWithBackoff gen r).result = .ok resp) :
    ∃ res : HospitalsResult,
      findHospitalsNearLocation gen r latitude longitude query =
        (.ok res, (retryWithBackoff gen r).calls) ∧
      (∀ h ∈ res.hospitals, ∃ c ∈ (mapsChunksOf resp).getD [], ∃ m,
        c.maps = some m ∧ m.title = some h.name ∧ m.uri = some h.uri ∧
        h.name ≠ "" ∧ h.uri ≠ "") ∧
      ((mapsChunksOf resp).getD [] = [] → res.hospitals = []) := by
  have hcontents : ∃ c, mkHospitalsContents latitude longitude query = .ok c := by
    rw [mkHospitalsContents]
    rcases hin with ⟨h1, h2⟩ | h
    · rw [if_pos (by simp [h1, h2])]
      exact ⟨_, rfl⟩
    · by_cases hco : (optNumTruthy latitude && optNumTruthy longitude) = true
      · rw [if_pos hco]
        exact ⟨_, rfl⟩
      · rw [if_neg hco, if_pos h]
        exact ⟨_, rfl⟩
  obtain ⟨c, hc⟩ := hcontents
  refine ⟨{ summary := (if optStrTruthy resp.text then resp.text.getD ""
              else "Here are some hospitals found near your location."),
            hospitals := (((mapsChunksOf resp).getD []).filter mapsChunkComplete).map
              (fun ch => { name := ((ch.maps.getD ⟨none, none⟩).title).getD "",
                           uri := ((ch.maps.getD ⟨none, none⟩).uri).getD "" }) },
    ?_, ?_, ?_⟩
  · simp only [findHospitalsNearLocation, hc, hok]
  · intro h hh
    simp only [List.mem_map] at hh
    obtain ⟨ch, hmem, hmap⟩ := hh
    rw [List.mem_filter] at hmem
    obtain ⟨hchunks, hcomplete⟩ := hmem
    rw [mapsChunkComplete] at hcomplete
    rcases hm : ch.maps with _ | m
    · rw [hm] at hcomplete; cases hcomplete
    · rw [hm] at hcomplete
      rw [Bool.and_eq_true] at hcomplete
      obtain ⟨huri, htitle⟩ := hcomplete
      obtain ⟨u, hu, hune⟩ := (optStrTruthy_iff _).mp huri
      obtain ⟨tt, ht, htne⟩ := (optStrTruthy_iff _).mp htitle
      refine ⟨ch, hchunks, m, hm, ?_, ?_, ?_, ?_⟩
      · rw [← hmap]; simp [hm, ht]
      · rw [← hmap]; simp [hm, hu]
      · rw [← hmap]; simp [hm, ht, htne]
      · rw [← hmap]; simp [hm, hu, hune]
  · intro hempty
    simp [hempty]

def chunkComplete1 : MapsChunk :=
  { maps := some { uri := some "maps/one", title := some "City Hospital" } }

def chunkNoTitle : MapsChunk :=
  { maps := some { uri := some "maps/two", title := none } }

def chunkNoMaps : MapsChunk := { maps := none }

def metadataC10 : MapsMetadata :=
  { groundingChunks := some [chunkComplete1, chunkNoTitle, chunkNoMaps] }

def respC10 : MapsResponse :=
  { candidates := [{ groundingMetadata := some metadataC10 }],
    text := some "Two places found." }

def genC10 : Nat → Except JsError MapsResponse := fun _ => .ok respC10

/-- C10 witness: a response with one complete chunk, one chunk missing the
title and one chunk missing the maps payload entirely, reached through a
query-only lookup. -/
theorem hospitals_entries_from_complete_chunks_witness :
    ∃ res : HospitalsResult,
      findHospitalsNearLocation genC10 (fun _ => 0) none none (some "Kathmandu") =
        (.ok res, (retryWithBackoff genC10 (fun _ => 0)).calls) ∧
      (∀ h ∈ res.hospitals, ∃ c ∈ (mapsChunksOf respC10).getD [], ∃ m,
        c.maps = some m ∧ m.title = some h.name ∧ m.uri = some h.uri ∧
        h.name ≠ "" ∧ h.uri ≠ "") ∧
      ((mapsChunksOf respC10).getD [] = [] → res.hospitals = []) :=
  hospitals_entries_from_complete_chunks genC10 (fun _ => 0) none none
    (some "Kathmandu") respC10 (Or.inr rfl) rfl

def overload503 : JsError := { status := some 503, message := "The model is overloaded" }

def predictionsOkJson : JsValue :=
  .obj [("predictions", .arr [.str "Influenza"])]

def jsonParseC4 : String → Except Unit JsValue := fun _ => .ok predictionsOkJson

def genPrimaryC4 : Nat → Except JsError GenResponse := fun _ => .error overload503

def genFallbackC4 : Nat → Except JsError GenResponse :=
  fun n => if n = 0 then .error overload503 else .ok ⟨"RESP"⟩

/-- C4 counterexample: the primary call exhausts its retry budget on 503
and escalates; the fallback itself fails once with 503 and then succeeds,
so the fallback model is invoked twice — the fallback call runs inside its
own `retryWithBackoff` loop, refuting "no further retry loop on the
fallback call itself" (and the strict reading of "exactly one
fallback-model call"). -/
theorem symptom_fallback_retry_loop_counterexample :
    (retryWithBackoff genPrimaryC4 (fun _ => 0)).result = .error (some overload503) ∧
    overload503.status = some 503 ∧
    (predictSymptomsFromText jsonParseC4 genPrimaryC4 genFallbackC4
      (fun _ => 0) (fun _ => 0)).escalations = 1 ∧
    (predictSymptomsFromText jsonParseC4 genPrimaryC4 genFallbackC4
      (fun _ => 0) (fun _ => 0)).fallbackCalls = 2 :=
  ⟨rfl, rfl, rfl, rfl⟩

/-- C4 amended: when the primary call (as wrapped by `retryWithBackoff`)
fails with status exactly 503, the escalation to the fallback model fires
exactly once and the fallback call runs under the same retry wrapper — the
number of fallback-model invocations equals that wrapper's call count,
which is bounded by the budget of 5, and need not be 1; when the primary
call fails with any other status, no fallback call is issued and the
(translated) primary error propagates. -/
theorem symptom_fallback_escalation_policy
    (jsonParse : String → Except Unit JsValue)
    (genPrimary genFallback : Nat → Except JsError GenResponse)
    (rPrimary rFallback : Nat → ℚ) (e : JsError)
    (herr : (retryWithBackoff genPrimary rPrimary).result = .error (some e)) :
    (e.status = some 503 →
      (predictSymptomsFromText jsonParse genPrimary genFallback rPrimary
        rFallback).escalations = 1 ∧
      (predictSymptomsFromText jsonParse genPrimary genFallback rPrimary
        rFallback).fallbackCalls = (retryWithBackoff genFallback rFallback).calls ∧
      (predictSymptomsFromText jsonParse genPrimary genFallback rPrimary
        rFallback).fallbackCalls ≤ 5) ∧
    (e.status ≠ some 503 →
      (predictSymptomsFromText jsonParse genPrimary genFallback rPrimary
        rFallback).escalations = 0 ∧
      (predictSymptomsFromText jsonParse genPrimary genFallback rPrimary
        rFallback).fallbackCalls = 0 ∧
      (predictSymptomsFromText jsonParse genPrimary genFallback rPrimary
        rFallback).result =
        .error (if e.isSyntaxError then symptomsParseErr else symptomsGenericErr)) := by
  have hle : (retryWithBackoff genFallback rFallback).calls ≤ 5 :=
    retryLoop_calls_le genFallback rFallback 200 5 0 1000 none
  constructor
  · intro h503
    have hfields :
        (predictSymptomsFromText jsonParse genPrimary genFallback rPrimary
          rFallback).escalations = 1 ∧
        (predictSymptomsFromText jsonParse genPrimary genFallback rPrimary
          rFallback).fallbackCalls = (retryWithBackoff genFallback rFallback).calls := by
      rcases hF : (retryWithBackoff genFallback rFallback).result with oe2 | fresp
      · constructor <;>
          simp [predictSymptomsFromText, herr, unwrapThrown, h503, hF]
      · rcases hP : jsonParse fresp.text.trim with u | parsed
        · constructor <;>
            simp [predictSymptomsFromText, herr, unwrapThrown, h503, hF, hP]
        · by_cases hT : (parsed.getField "predictions").truthy = true
          · constructor <;>
              simp [predictSymptomsFromText, herr, unwrapThrown, h503, hF, hP, hT]
          · constructor <;>
              simp [predictSymptomsFromText, herr, unwrapThrown, h503, hF, hP, hT]
    exact ⟨hfields.1, hfields.2, by rw [hfields.2]; exact hle⟩
  · intro hne
    refine ⟨?_, ?_, ?_⟩ <;>
      simp [predictSymptomsFromText, herr, unwrapThrown, hne]

/-- C4 amended witness: the counterexample scenario satisfies the amended
statement — one escalation, with the fallback invoked exactly the retry
wrapper's call count (2 here, at most 5). -/
theorem symptom_fallback_escalation_policy_witness :
    (predictSymptomsFromText jsonParseC4 genPrimaryC4 genFallbackC4
      (fun _ => 0) (fun _ => 0)).escalations = 1 ∧
    (predictSymptomsFromText jsonParseC4 genPrimaryC4 genFallbackC4
      (fun _ => 0) (fun _ => 0)).fallbackCalls =
      (retryWithBackoff genFallbackC4 (fun _ => 0)).calls ∧
    (predictSymptomsFromText jsonParseC4 genPrimaryC4 genFallbackC4
      (fun _ => 0) (fun _ => 0)).fallbackCalls ≤ 5 :=
  (symptom_fallback_escalation_policy jsonParseC4 genPrimaryC4 genFallbackC4
    (fun _ => 0) (fun _ => 0) overload503 rfl).1 rfl
